import Mathlib

/-!
Shallow embedding of the Turbo-Racer simulation core (src/src/App.tsx).

The mutable React refs (`gameStateRef`, `speedRef`, `scoreRef`, `playerRef`,
`obstaclesRef`, `landmarksRef`, `roadOffsetRef`, `lastTimeRef`, `highScore`)
become fields of a single `GameState` record; the functions `movePlayer`,
`startGame`, `gameOver` and `gameLoop` become pure state transformers.
JavaScript numbers are modelled as exact rationals, and the per-tick calls to
`Math.random()` are passed in explicitly as a `Draws` record (each draw
nominally in `[0,1)`).  Rendering, audio and the throttled UI sync are
presentation-only and carry no simulation state, so they are omitted.
-/

namespace TurboRacer

/-- Canvas width in pixels (source constant `CANVAS_WIDTH = 400`). -/
def CANVAS_WIDTH : ℚ := 400

/-- Canvas height in pixels (source constant `CANVAS_HEIGHT = 600`). -/
def CANVAS_HEIGHT : ℚ := 600

/-- Lane width (source constant `LANE_WIDTH = CANVAS_WIDTH / 3`). -/
def LANE_WIDTH : ℚ := CANVAS_WIDTH / 3

/-- Player car width (source constant `PLAYER_WIDTH = 50`). -/
def PLAYER_WIDTH : ℚ := 50

/-- Player car height (source constant `PLAYER_HEIGHT = 80`). -/
def PLAYER_HEIGHT : ℚ := 80

/-- Obstacle width (source constant `OBSTACLE_WIDTH = 50`). -/
def OBSTACLE_WIDTH : ℚ := 50

/-- Obstacle height (source constant `OBSTACLE_HEIGHT = 80`). -/
def OBSTACLE_HEIGHT : ℚ := 80

/-- Initial speed (source constant `INITIAL_SPEED = 8`). -/
def INITIAL_SPEED : ℚ := 8

/-- Lifecycle phase of the session:  the values of `gameStateRef`
(`START`/`PLAYING`/`GAMEOVER`; the spec calls them idle/running/terminated). -/
inductive Phase where
  | start
  | playing
  | gameover
  deriving DecidableEq

/-- Cosmetic kind tag of an obstacle (`'pottery' | 'stall' | 'chariot'`). -/
inductive ObstacleKind where
  | pottery
  | stall
  | chariot
  deriving DecidableEq

/-- Landmark kind (`'tower' | 'ruin' | 'felucca' | 'pyramid' | 'building' | 'temple'`). -/
inductive LandmarkKind where
  | tower
  | ruin
  | felucca
  | pyramid
  | building
  | temple
  deriving DecidableEq

/-- Landmark side (`'left' | 'right'`). -/
inductive Side where
  | left
  | right
  deriving DecidableEq

/-- The `GameObject` interface: player car and obstacles.  `kind` is the
optional `type` field (absent on the player). -/
structure GameObject where
  x : ℚ
  y : ℚ
  width : ℚ
  height : ℚ
  color : String
  lane : ℤ
  kind : Option ObstacleKind
  deriving DecidableEq

/-- The `Landmark` interface.  The source sets `id: Math.random().toString()`;
we keep the raw random draw as the identifier. -/
structure Landmark where
  id : ℚ
  x : ℚ
  y : ℚ
  kind : LandmarkKind
  side : Side
  deriving DecidableEq

/-- The behavioural fields of the `Track` interface (the remaining fields are
colors and text consumed only by the renderer; `obstacleColor` is kept because
it is copied onto spawned obstacles). -/
structure Track where
  id : String
  initialSpeed : ℚ
  speedIncrement : ℚ
  obstacleColor : String
  landmarkTypes : List LandmarkKind
  deriving DecidableEq

/-- Upgrade levels from `CarCustomization.upgrades`. -/
structure Upgrades where
  engine : ℕ
  tires : ℕ
  deriving DecidableEq

/-- The behavioural fields of `CarCustomization` (`model` and `decal` are
purely cosmetic and never read by the simulation). -/
structure CarCustomization where
  color : String
  upgrades : Upgrades
  deriving DecidableEq

/-- The whole mutable state of the simulation core, gathering the refs of the
source component.  `highScore` is the persisted best score (React state plus
the `localStorage` record, which always agree). -/
structure GameState where
  phase : Phase
  score : ℕ
  speed : ℚ
  highScore : ℕ
  player : GameObject
  obstacles : List GameObject
  landmarks : List Landmark
  roadOffset : ℚ
  lastTime : ℚ
  deriving DecidableEq

/-- The values drawn from `Math.random()` during one tick, in source order.
JavaScript short-circuiting means some draws are not consumed on some ticks;
passing them all is harmless. -/
structure Draws where
  obsGate : ℚ
  obsLane : ℚ
  obsKind : ℚ
  lmGate : ℚ
  lmSide : ℚ
  lmKind : ℚ
  lmId : ℚ
  deriving DecidableEq

/-- Pixel x-coordinate of a car in a lane:
`lane * LANE_WIDTH + (LANE_WIDTH - PLAYER_WIDTH) / 2`. -/
def laneX (lane : ℤ) : ℚ := lane * LANE_WIDTH + (LANE_WIDTH - PLAYER_WIDTH) / 2

/-- `movePlayer(dir)`: clamp the new lane to `[0,2]` with
`Math.max(0, Math.min(2, lane + dir))` and recompute the pixel position. -/
def movePlayer (dir : ℤ) (s : GameState) : GameState :=
  let newLane := max 0 (min 2 (s.player.lane + dir))
  { s with player := { s.player with lane := newLane, x := laneX newLane } }

/-- The initial `playerRef` value. -/
def initialPlayer : GameObject :=
  { x := laneX 1
    y := CANVAS_HEIGHT - PLAYER_HEIGHT - 20
    width := PLAYER_WIDTH
    height := PLAYER_HEIGHT
    color := "#3b82f6"
    lane := 1
    kind := none }

/-- The state at component mount: phase `START`, score 0, speed
`INITIAL_SPEED`, empty collections (persisted best defaults to 0). -/
def initialState : GameState :=
  { phase := Phase.start
    score := 0
    speed := INITIAL_SPEED
    highScore := 0
    player := initialPlayer
    obstacles := []
    landmarks := []
    roadOffset := 0
    lastTime := 0 }

/-- Engine upgrade bonus per level (`customization.upgrades.engine * 1.0`). -/
def ENGINE_BONUS_PER_LEVEL : ℚ := 1

/-- `startGame()`: enter `PLAYING`, reset score, set speed to
`track.initialSpeed + engineBonus`, clear both entity collections, reset the
player to the center lane and repaint it, and record the start time. -/
def startGame (cust : CarCustomization) (track : Track) (now : ℚ)
    (s : GameState) : GameState :=
  { s with
    phase := Phase.playing
    score := 0
    speed := track.initialSpeed + cust.upgrades.engine * ENGINE_BONUS_PER_LEVEL
    obstacles := []
    landmarks := []
    player := { s.player with lane := 1, x := laneX 1, color := cust.color }
    lastTime := now }

/-- `gameOver()`: no-op unless `PLAYING`; otherwise enter `GAMEOVER` and
update the persisted best iff the final score strictly exceeds it. -/
def gameOver (s : GameState) : GameState :=
  if s.phase ≠ Phase.playing then s
  else
    { s with
      phase := Phase.gameover
      highScore := if s.score > s.highScore then s.score else s.highScore }

/-- The collision predicate of the source, verbatim:
`player.x < obs.x + obs.width && player.x + player.width > obs.x &&
 player.y < obs.y + obs.height && player.y + player.height > obs.y`. -/
def overlap (p o : GameObject) : Prop :=
  p.x < o.x + o.width ∧ p.x + p.width > o.x ∧
  p.y < o.y + o.height ∧ p.y + p.height > o.y

instance (p o : GameObject) : Decidable (overlap p o) := by
  unfold overlap; infer_instance

/-- JavaScript `%` on rationals: `a - b * trunc(a / b)` (truncation toward
zero), used for the cosmetic road offset. -/
def jsMod (a b : ℚ) : ℚ :=
  if 0 ≤ a / b then a - b * ⌊a / b⌋ else a - b * ⌈a / b⌉

/-- Per-level reduction of the speed increment from the tires upgrade
(`customization.upgrades.tires * 0.0002`). -/
def TIRE_REDUCTION_PER_LEVEL : ℚ := 0.0002

/-- Floor of the per-tick speed increment (`Math.max(0.0001, ...)`). -/
def FLOOR_INCREMENT : ℚ := 0.0001

/-- The per-tick speed increment:
`Math.max(0.0001, track.speedIncrement - tireBonus)`. -/
def effectiveIncrement (cust : CarCustomization) (track : Track) : ℚ :=
  max FLOOR_INCREMENT
    (track.speedIncrement - cust.upgrades.tires * TIRE_REDUCTION_PER_LEVEL)

/-- Obstacle motion: `obs.y += currentSpeed`. -/
def moveObstacle (v : ℚ) (o : GameObject) : GameObject := { o with y := o.y + v }

/-- Landmark motion: `lm.y += currentSpeed`. -/
def moveLandmark (v : ℚ) (lm : Landmark) : Landmark := { lm with y := lm.y + v }

/-- The obstacle spawn gate, evaluated on the already moved-and-filtered list:
`obstacles.length === 0 || (obstacles[obstacles.length - 1].y > 200 && Math.random() < 0.02)`. -/
def obstacleSpawnGate (d : Draws) (obstacles : List GameObject) : Bool :=
  match obstacles.getLast? with
  | none => true
  | some last => decide (last.y > 200) && decide (d.obsGate < 0.02)

/-- The fixed cosmetic kind set `['pottery', 'stall', 'chariot']`. -/
def obstacleKinds : List ObstacleKind :=
  [ObstacleKind.pottery, ObstacleKind.stall, ObstacleKind.chariot]

/-- The freshly spawned obstacle: lane `Math.floor(Math.random() * 3)`, kind
drawn from `obstacleKinds`, positioned at the top boundary `y = -OBSTACLE_HEIGHT`. -/
def newObstacle (track : Track) (d : Draws) : GameObject :=
  let lane : ℤ := ⌊d.obsLane * 3⌋
  let kind := obstacleKinds.getD (⌊d.obsKind * 3⌋).toNat ObstacleKind.pottery
  { x := lane * LANE_WIDTH + (LANE_WIDTH - OBSTACLE_WIDTH) / 2
    y := -OBSTACLE_HEIGHT
    width := OBSTACLE_WIDTH
    height := OBSTACLE_HEIGHT
    color := track.obstacleColor
    lane := lane
    kind := some kind }

/-- The landmark spawn gate:
`landmarks.length === 0 || (landmarks[landmarks.length - 1].y > 400 && Math.random() < 0.01)`. -/
def landmarkSpawnGate (d : Draws) (landmarks : List Landmark) : Bool :=
  match landmarks.getLast? with
  | none => true
  | some last => decide (last.y > 400) && decide (d.lmGate < 0.01)

/-- The freshly spawned landmark: side `Math.random() > 0.5 ? 'left' : 'right'`,
kind drawn from the track's permitted set, `y = -200`. -/
def newLandmark (track : Track) (d : Draws) : Landmark :=
  let side : Side := if d.lmSide > 0.5 then Side.left else Side.right
  let kind := track.landmarkTypes.getD
    (⌊d.lmKind * track.landmarkTypes.length⌋).toNat LandmarkKind.tower
  { id := d.lmId
    x := if side = Side.left then 20 else CANVAS_WIDTH - 80
    y := -200
    kind := kind
    side := side }

/-- Obstacles surviving the motion-and-eviction stage of a tick: each moved
down by the new speed, then `filter(obs => obs.y < CANVAS_HEIGHT)`. -/
def survivingObstacles (v : ℚ) (obstacles : List GameObject) : List GameObject :=
  (obstacles.map (moveObstacle v)).filter (fun o => decide (o.y < CANVAS_HEIGHT))

/-- Landmarks surviving the motion-and-eviction stage of a tick. -/
def survivingLandmarks (v : ℚ) (landmarks : List Landmark) : List Landmark :=
  (landmarks.map (moveLandmark v)).filter (fun lm => decide (lm.y < CANVAS_HEIGHT))

/-- The obstacle collection after the motion, eviction and spawn stages of a
tick whose new speed is `v`. -/
def tickObstacles (track : Track) (d : Draws) (v : ℚ)
    (obstacles : List GameObject) : List GameObject :=
  let surv := survivingObstacles v obstacles
  if obstacleSpawnGate d surv then surv ++ [newObstacle track d] else surv

/-- The landmark collection after the motion, eviction and spawn stages of a
tick whose new speed is `v`. -/
def tickLandmarks (track : Track) (d : Draws) (v : ℚ)
    (landmarks : List Landmark) : List Landmark :=
  let surv := survivingLandmarks v landmarks
  if landmarkSpawnGate d surv then surv ++ [newLandmark track d] else surv

/-- `gameLoop(time)`, one tick of the simulation: return immediately unless
`PLAYING`; otherwise record `time` in `lastTimeRef` (the computed `deltaTime`
is never read), raise the speed, advance the road offset, move both entity
collections, evict off-screen entities, run both spawn gates, then check the
player against every active obstacle; on overlap call `gameOver()` and stop
(no score increment), otherwise increment the score by 1. -/
def gameLoop (cust : CarCustomization) (track : Track) (d : Draws) (time : ℚ)
    (s : GameState) : GameState :=
  if s.phase ≠ Phase.playing then s
  else
    let currentSpeed := s.speed + effectiveIncrement cust track
    let obstacles := tickObstacles track d currentSpeed s.obstacles
    let landmarks := tickLandmarks track d currentSpeed s.landmarks
    let s2 : GameState :=
      { s with
        lastTime := time
        speed := currentSpeed
        roadOffset := jsMod (s.roadOffset + currentSpeed) 100
        obstacles := obstacles
        landmarks := landmarks }
    if obstacles.any (fun o => decide (overlap s.player o)) then gameOver s2
    else { s2 with score := s.score + 1 }

/-- One externally triggered transition of the system: the start button
(`startGame`), an animation frame (`gameLoop`), or a left/right key press
(`movePlayer(±1)`, which the key handler only forwards while `PLAYING`). -/
inductive Step : GameState → GameState → Prop where
  | start (cust : CarCustomization) (track : Track) (now : ℚ) (s : GameState) :
      Step s (startGame cust track now s)
  | tick (cust : CarCustomization) (track : Track) (d : Draws) (time : ℚ)
      (s : GameState) : Step s (gameLoop cust track d time s)
  | moveLeft (s : GameState) (h : s.phase = Phase.playing) :
      Step s (movePlayer (-1) s)
  | moveRight (s : GameState) (h : s.phase = Phase.playing) :
      Step s (movePlayer 1 s)

/-- States reachable from the mount state by any sequence of transitions. -/
def Reachable (s : GameState) : Prop :=
  Relation.ReflTransGen Step initialState s

/-- The three track profiles of the source `TRACKS` array, behavioural fields
only. -/
def cityTrack : Track :=
  { id := "city", initialSpeed := 8, speedIncrement := 0.002,
    obstacleColor := "#ef4444",
    landmarkTypes := [LandmarkKind.tower, LandmarkKind.building] }

/-- The desert track profile. -/
def desertTrack : Track :=
  { id := "desert", initialSpeed := 11, speedIncrement := 0.003,
    obstacleColor := "#991b1b",
    landmarkTypes := [LandmarkKind.ruin, LandmarkKind.pyramid] }

/-- The neon track profile. -/
def neonTrack : Track :=
  { id := "neon", initialSpeed := 14, speedIncrement := 0.004,
    obstacleColor := "#f472b6",
    landmarkTypes := [LandmarkKind.felucca, LandmarkKind.temple] }

/-- The default car customization (`model: 'classic'` and `decal: 'none'` are
cosmetic and omitted). -/
def defaultCustomization : CarCustomization :=
  { color := "#3b82f6", upgrades := { engine := 0, tires := 0 } }

/-- A fixed record of random draws for concrete evaluations. -/
def sampleDraws : Draws :=
  { obsGate := 0.5, obsLane := 0.5, obsKind := 0.5,
    lmGate := 0.5, lmSide := 0.5, lmKind := 0.5, lmId := 0.5 }

/-- A generic mid-session state used to instantiate theorems at concrete
inputs: phase `PLAYING`, score 7, speed 8, persisted best 3, default player,
empty collections. -/
def samplePlaying : GameState :=
  { phase := Phase.playing
    score := 7
    speed := 8
    highScore := 3
    player := initialPlayer
    obstacles := []
    landmarks := []
    roadOffset := 0
    lastTime := 0 }

theorem gameLoop_not_playing (cust : CarCustomization) (track : Track)
    (d : Draws) (time : ℚ) (s : GameState) (h : s.phase ≠ Phase.playing) :
    gameLoop cust track d time s = s := by
  rw [gameLoop, if_pos (by simp [h])]

theorem gameLoop_playing (cust : CarCustomization) (track : Track) (d : Draws)
    (time : ℚ) (s : GameState) (h : s.phase = Phase.playing) :
    gameLoop cust track d time s =
      (if (tickObstacles track d (s.speed + effectiveIncrement cust track)
            s.obstacles).any (fun o => decide (overlap s.player o)) then
        gameOver
          { s with
            lastTime := time
            speed := s.speed + effectiveIncrement cust track
            roadOffset := jsMod (s.roadOffset + (s.speed + effectiveIncrement cust track)) 100
            obstacles := tickObstacles track d (s.speed + effectiveIncrement cust track) s.obstacles
            landmarks := tickLandmarks track d (s.speed + effectiveIncrement cust track) s.landmarks }
      else
        { s with
          lastTime := time
          speed := s.speed + effectiveIncrement cust track
          roadOffset := jsMod (s.roadOffset + (s.speed + effectiveIncrement cust track)) 100
          obstacles := tickObstacles track d (s.speed + effectiveIncrement cust track) s.obstacles
          landmarks := tickLandmarks track d (s.speed + effectiveIncrement cust track) s.landmarks
          score := s.score + 1 }) := by
  rw [gameLoop, if_neg (by simp [h])]

theorem gameOver_playing (s : GameState) (h : s.phase = Phase.playing) :
    gameOver s =
      { s with
        phase := Phase.gameover
        highScore := if s.score > s.highScore then s.score else s.highScore } := by
  rw [gameOver, if_neg (by simp [h])]

/-- C8: a tick invoked while the machine is not in the running phase is a
no-op: `gameLoop` returns the state unchanged (score, speed, phase, player,
entity collections, road offset and even the stored timestamp are untouched). -/
theorem tick_noop_when_not_running (cust : CarCustomization) (track : Track)
    (d : Draws) (time : ℚ) (s : GameState) (h : s.phase ≠ Phase.playing) :
    gameLoop cust track d time s = s :=
  gameLoop_not_playing cust track d time s h

theorem tick_noop_when_not_running_witness :
    initialState.phase ≠ Phase.playing ∧
      gameLoop defaultCustomization cityTrack sampleDraws 1 initialState =
        initialState :=
  ⟨by decide,
    tick_noop_when_not_running defaultCustomization cityTrack sampleDraws 1
      initialState (by decide)⟩

/-- C6: on termination with final score `S` against persisted best `B`, the
persisted best becomes `S` iff `S > B` (strict), and is left unchanged
otherwise; in particular a tie does not update it. -/
theorem best_score_updated_iff_strictly_greater (s : GameState)
    (h : s.phase = Phase.playing) :
    ((gameOver s).phase = Phase.gameover) ∧
      (s.score > s.highScore → (gameOver s).highScore = s.score) ∧
      (¬s.score > s.highScore → (gameOver s).highScore = s.highScore) := by
  rw [gameOver_playing s h]
  refine ⟨rfl, fun hgt => ?_, fun hle => ?_⟩
  · simp [hgt]
  · simp [hle]

theorem best_score_updated_iff_strictly_greater_witness :
    samplePlaying.phase = Phase.playing ∧ samplePlaying.score = 7 ∧
      samplePlaying.highScore = 3 ∧ (gameOver samplePlaying).highScore = 7 :=
  ⟨rfl, rfl, rfl,
    (best_score_updated_iff_strictly_greater samplePlaying rfl).2.1 (by decide)⟩

/-- C3: every running tick raises the speed by exactly
`max(FLOOR_INCREMENT, track.speedIncrement - tireLevel * TIRE_REDUCTION_PER_LEVEL)`
with `FLOOR_INCREMENT = 0.0001` and `TIRE_REDUCTION_PER_LEVEL = 0.0002`, and
consequently the speed never decreases across any tick. -/
theorem speed_increment_exact_and_monotone :
    (∀ (cust : CarCustomization) (track : Track) (d : Draws) (time : ℚ)
        (s : GameState), s.phase = Phase.playing →
        (gameLoop cust track d time s).speed =
          s.speed + max FLOOR_INCREMENT
            (track.speedIncrement - cust.upgrades.tires * TIRE_REDUCTION_PER_LEVEL)) ∧
      (∀ (cust : CarCustomization) (track : Track) (d : Draws) (time : ℚ)
        (s : GameState), s.speed ≤ (gameLoop cust track d time s).speed) ∧
      FLOOR_INCREMENT = 0.0001 ∧ TIRE_REDUCTION_PER_LEVEL = 0.0002 := by
  have key : ∀ (cust : CarCustomization) (track : Track) (d : Draws) (time : ℚ)
      (s : GameState), s.phase = Phase.playing →
      (gameLoop cust track d time s).speed =
        s.speed + effectiveIncrement cust track := by
    intro cust track d time s h
    rw [gameLoop_playing cust track d time s h]
    split
    · rw [gameOver_playing _ (by simp [h])]
    · rfl
  refine ⟨fun cust track d time s h => ?_, fun cust track d time s => ?_, rfl, rfl⟩
  · rw [key cust track d time s h]; rfl
  · by_cases h : s.phase = Phase.playing
    · rw [key cust track d time s h]
      have : (0 : ℚ) < FLOOR_INCREMENT := by norm_num [FLOOR_INCREMENT]
      have hinc : (0 : ℚ) < effectiveIncrement cust track :=
        lt_of_lt_of_le this (le_max_left _ _)
      linarith
    · rw [gameLoop_not_playing cust track d time s h]

theorem speed_increment_exact_and_monotone_witness :
    samplePlaying.phase = Phase.playing ∧
      (gameLoop defaultCustomization cityTrack sampleDraws 1 samplePlaying).speed =
        samplePlaying.speed + max FLOOR_INCREMENT
          (cityTrack.speedIncrement -
            defaultCustomization.upgrades.tires * TIRE_REDUCTION_PER_LEVEL) :=
  ⟨rfl,
    speed_increment_exact_and_monotone.1 defaultCustomization cityTrack
      sampleDraws 1 samplePlaying rfl⟩

/-- C1: on a running tick the player is checked against every active obstacle
with exactly the `overlap` predicate (landmarks live in a separate collection
and are never consulted); the phase becomes `GAMEOVER` iff some active
obstacle overlaps the player, and in that case the tick is truncated: the
score is not incremented. -/
theorem collision_terminates_and_truncates_tick (cust : CarCustomization)
    (track : Track) (d : Draws) (time : ℚ) (s : GameState)
    (h : s.phase = Phase.playing) :
    ((gameLoop cust track d time s).obstacles =
        tickObstacles track d (s.speed + effectiveIncrement cust track) s.obstacles) ∧
      ((gameLoop cust track d time s).phase = Phase.gameover ↔
        ∃ o ∈ tickObstacles track d (s.speed + effectiveIncrement cust track)
          s.obstacles, overlap s.player o) ∧
      ((∃ o ∈ tickObstacles track d (s.speed + effectiveIncrement cust track)
          s.obstacles, overlap s.player o) →
        (gameLoop cust track d time s).score = s.score) := by
  rw [gameLoop_playing cust track d time s h]
  by_cases hc :
      ((tickObstacles track d (s.speed + effectiveIncrement cust track)
        s.obstacles).any fun o => decide (overlap s.player o)) = true
  · have hex : ∃ o ∈ tickObstacles track d (s.speed + effectiveIncrement cust track)
        s.obstacles, overlap s.player o := by
      simpa only [List.any_eq_true, decide_eq_true_eq] using hc
    rw [if_pos hc, gameOver_playing _ (by simp [h])]
    exact ⟨rfl, by simpa using hex, fun _ => rfl⟩
  · have hnex : ¬∃ o ∈ tickObstacles track d (s.speed + effectiveIncrement cust track)
        s.obstacles, overlap s.player o := by
      simpa only [List.any_eq_true, decide_eq_true_eq] using hc
    rw [if_neg hc]
    refine ⟨rfl, ?_, fun hex => absurd hex hnex⟩
    simp only [h]
    exact ⟨fun hfalse => absurd hfalse (by simp), fun hex => absurd hex hnex⟩

theorem collision_terminates_and_truncates_tick_witness :
    samplePlaying.phase = Phase.playing ∧
      ((gameLoop defaultCustomization cityTrack sampleDraws 1 samplePlaying).obstacles =
          tickObstacles cityTrack sampleDraws
            (samplePlaying.speed + effectiveIncrement defaultCustomization cityTrack)
            samplePlaying.obstacles) ∧
        ((gameLoop defaultCustomization cityTrack sampleDraws 1 samplePlaying).phase =
            Phase.gameover ↔
          ∃ o ∈ tickObstacles cityTrack sampleDraws
            (samplePlaying.speed + effectiveIncrement defaultCustomization cityTrack)
            samplePlaying.obstacles, overlap samplePlaying.player o) ∧
        ((∃ o ∈ tickObstacles cityTrack sampleDraws
            (samplePlaying.speed + effectiveIncrement defaultCustomization cityTrack)
            samplePlaying.obstacles, overlap samplePlaying.player o) →
          (gameLoop defaultCustomization cityTrack sampleDraws 1 samplePlaying).score =
            samplePlaying.score) :=
  ⟨rfl, collision_terminates_and_truncates_tick defaultCustomization cityTrack
    sampleDraws 1 samplePlaying rfl⟩

/-- An obstacle one lane-1 car length above the player, used to exhibit a
collision tick: after moving down by the tick speed it overlaps the player. -/
def collisionObstacle : GameObject :=
  { x := 175
    y := 415
    width := 50
    height := 80
    color := "#ef4444"
    lane := 1
    kind := some ObstacleKind.pottery }

/-- A running state one tick away from a collision in lane 1. -/
def collisionState : GameState :=
  { phase := Phase.playing
    score := 5
    speed := 8
    highScore := 0
    player := initialPlayer
    obstacles := [collisionObstacle]
    landmarks := []
    roadOffset := 0
    lastTime := 0 }

/-- C2 counterexample: a tick processed while the phase is running in which an
obstacle overlaps the player leaves the score unchanged instead of
incrementing it, so the score does depend on the entity collections. -/
theorem score_not_incremented_on_collision_cex :
    collisionState.phase = Phase.playing ∧
      (gameLoop defaultCustomization cityTrack sampleDraws 1 collisionState).score =
        collisionState.score ∧
      (gameLoop defaultCustomization cityTrack sampleDraws 1 collisionState).score ≠
        collisionState.score + 1 := by
  refine ⟨rfl, ?_, ?_⟩ <;>
    norm_num [gameLoop, gameOver, collisionState, collisionObstacle, initialPlayer,
      tickObstacles, tickLandmarks, survivingObstacles, survivingLandmarks,
      obstacleSpawnGate, landmarkSpawnGate, newObstacle, newLandmark,
      effectiveIncrement, moveObstacle, moveLandmark, overlap, jsMod, laneX,
      defaultCustomization, cityTrack, sampleDraws, CANVAS_WIDTH, CANVAS_HEIGHT,
      LANE_WIDTH, PLAYER_WIDTH, PLAYER_HEIGHT, OBSTACLE_WIDTH, OBSTACLE_HEIGHT,
      TIRE_REDUCTION_PER_LEVEL, FLOOR_INCREMENT, obstacleKinds, max_def,
      List.filter, List.getLast?]

/-- C2 as amended: a running tick in which no active obstacle overlaps the
player increments the score by exactly 1 (independent of speed, lane and the
collections); a running tick that detects an overlap leaves the score
unchanged. -/
theorem score_increments_exactly_when_no_collision (cust : CarCustomization)
    (track : Track) (d : Draws) (time : ℚ) (s : GameState)
    (h : s.phase = Phase.playing) :
    ((∀ o ∈ tickObstacles track d (s.speed + effectiveIncrement cust track)
        s.obstacles, ¬overlap s.player o) →
      (gameLoop cust track d time s).score = s.score + 1) ∧
      ((∃ o ∈ tickObstacles track d (s.speed + effectiveIncrement cust track)
        s.obstacles, overlap s.player o) →
        (gameLoop cust track d time s).score = s.score) := by
  rw [gameLoop_playing cust track d time s h]
  by_cases hc :
      ((tickObstacles track d (s.speed + effectiveIncrement cust track)
        s.obstacles).any fun o => decide (overlap s.player o)) = true
  · have hex : ∃ o ∈ tickObstacles track d (s.speed + effectiveIncrement cust track)
        s.obstacles, overlap s.player o := by
      simpa only [List.any_eq_true, decide_eq_true_eq] using hc
    rw [if_pos hc, gameOver_playing _ (by simp [h])]
    obtain ⟨o, ho, hov⟩ := hex
    exact ⟨fun hall => absurd hov (hall o ho), fun _ => rfl⟩
  · have hnex : ¬∃ o ∈ tickObstacles track d (s.speed + effectiveIncrement cust track)
        s.obstacles, overlap s.player o := by
      simpa only [List.any_eq_true, decide_eq_true_eq] using hc
    rw [if_neg hc]
    exact ⟨fun _ => rfl, fun hex => absurd hex hnex⟩

theorem score_increments_exactly_when_no_collision_witness :
    samplePlaying.phase = Phase.playing ∧
      (gameLoop defaultCustomization cityTrack sampleDraws 1 samplePlaying).score =
        samplePlaying.score + 1 :=
  ⟨rfl,
    (score_increments_exactly_when_no_collision defaultCustomization cityTrack
      sampleDraws 1 samplePlaying rfl).1 (by
        norm_num [samplePlaying, initialPlayer, tickObstacles, survivingObstacles,
          obstacleSpawnGate, newObstacle, effectiveIncrement, moveObstacle, overlap,
          laneX, defaultCustomization, cityTrack, sampleDraws, CANVAS_WIDTH,
          CANVAS_HEIGHT, LANE_WIDTH, PLAYER_WIDTH, PLAYER_HEIGHT, OBSTACLE_WIDTH,
          OBSTACLE_HEIGHT, TIRE_REDUCTION_PER_LEVEL, FLOOR_INCREMENT, obstacleKinds,
          max_def, List.filter, List.getLast?])⟩

theorem floor_mul_three_eq (r : ℚ) (k : ℤ) :
    ⌊r * 3⌋ = k ↔ (k : ℚ) / 3 ≤ r ∧ r < ((k : ℚ) + 1) / 3 := by
  rw [Int.floor_eq_iff, div_le_iff₀ (by norm_num : (0:ℚ) < 3),
    lt_div_iff₀ (by norm_num : (0:ℚ) < 3)]

theorem floor_mul_three_mem (r : ℚ) (h0 : 0 ≤ r) (h1 : r < 1) :
    ⌊r * 3⌋ = 0 ∨ ⌊r * 3⌋ = 1 ∨ ⌊r * 3⌋ = 2 := by
  have hb0 : 0 ≤ ⌊r * 3⌋ := Int.floor_nonneg.mpr (by positivity)
  have hb2 : ⌊r * 3⌋ < 3 := Int.floor_lt.mpr (by push_cast; linarith)
  omega

theorem getD_kinds_uniform (r : ℚ) (h0 : 0 ≤ r) (h1 : r < 1) :
    (obstacleKinds.getD (⌊r * 3⌋).toNat ObstacleKind.pottery =
        ObstacleKind.pottery ↔ r < 1/3) ∧
      (obstacleKinds.getD (⌊r * 3⌋).toNat ObstacleKind.pottery =
        ObstacleKind.stall ↔ 1/3 ≤ r ∧ r < 2/3) ∧
      (obstacleKinds.getD (⌊r * 3⌋).toNat ObstacleKind.pottery =
        ObstacleKind.chariot ↔ 2/3 ≤ r) := by
  rcases floor_mul_three_mem r h0 h1 with h | h | h
  · have hb := (floor_mul_three_eq r 0).mp h
    norm_num at hb
    have hg : obstacleKinds.getD (⌊r * 3⌋).toNat ObstacleKind.pottery =
        ObstacleKind.pottery := by rw [h]; rfl
    rw [hg]
    exact ⟨⟨fun _ => hb.2, fun _ => rfl⟩,
      ⟨fun hc => absurd hc (by simp), fun hc => absurd hb.2 (not_lt.mpr hc.1)⟩,
      ⟨fun hc => absurd hc (by simp), fun hc => absurd hb.2 (not_lt.mpr (by linarith))⟩⟩
  · have hb := (floor_mul_three_eq r 1).mp h
    norm_num at hb
    have hg : obstacleKinds.getD (⌊r * 3⌋).toNat ObstacleKind.pottery =
        ObstacleKind.stall := by rw [h]; rfl
    rw [hg]
    exact ⟨⟨fun hc => absurd hc (by simp), fun hc => absurd hc (not_lt.mpr hb.1)⟩,
      ⟨fun _ => hb, fun _ => rfl⟩,
      ⟨fun hc => absurd hc (by simp), fun hc => absurd hb.2 (not_lt.mpr hc)⟩⟩
  · have hb := (floor_mul_three_eq r 2).mp h
    norm_num at hb
    have hg : obstacleKinds.getD (⌊r * 3⌋).toNat ObstacleKind.pottery =
        ObstacleKind.chariot := by rw [h]; rfl
    rw [hg]
    exact ⟨⟨fun hc => absurd hc (by simp), fun hc => absurd hc (not_lt.mpr (by linarith [hb.1]))⟩,
      ⟨fun hc => absurd hc (by simp), fun hc => absurd hc.2 (not_lt.mpr hb.1)⟩,
      ⟨fun _ => hb.1, fun _ => rfl⟩⟩

theorem obstacleSpawnGate_iff (d : Draws) (l : List GameObject) :
    obstacleSpawnGate d l = true ↔
      l = [] ∨ ∃ last, l.getLast? = some last ∧ last.y > 200 ∧
        d.obsGate < 0.02 := by
  unfold obstacleSpawnGate
  rcases hl : l.getLast? with _ | last
  · have : l = [] := by
      cases l with
      | nil => rfl
      | cons a t => simp [List.getLast?_eq_none_iff] at hl
    simp [this]
  · have hne : l ≠ [] := by rintro rfl; simp at hl
    simp only [hl, hne, false_or, Bool.and_eq_true, decide_eq_true_eq]
    constructor
    · exact fun hc => ⟨last, rfl, hc.1, hc.2⟩
    · rintro ⟨last2, hlast2, hy, hg⟩
      cases hlast2
      exact ⟨hy, hg⟩

theorem gameLoop_obstacles (cust : CarCustomization) (track : Track) (d : Draws)
    (time : ℚ) (s : GameState) (h : s.phase = Phase.playing) :
    (gameLoop cust track d time s).obstacles =
      tickObstacles track d (s.speed + effectiveIncrement cust track)
        s.obstacles := by
  rw [gameLoop_playing cust track d time s h]
  split
  · rw [gameOver_playing _ (by simp [h])]
  · rfl

theorem gameLoop_landmarks (cust : CarCustomization) (track : Track) (d : Draws)
    (time : ℚ) (s : GameState) (h : s.phase = Phase.playing) :
    (gameLoop cust track d time s).landmarks =
      tickLandmarks track d (s.speed + effectiveIncrement cust track)
        s.landmarks := by
  rw [gameLoop_playing cust track d time s h]
  split
  · rw [gameOver_playing _ (by simp [h])]
  · rfl

/-- C4: on a running tick an obstacle is spawned iff the moved-and-filtered
collection is empty, or its most recent element has `y > 200` and the gate
draw is below `0.02`; the spawn lands at the top boundary `y = -80`, its lane
is `⌊draw * 3⌋` which partitions `[0,1)` into three equal lane intervals, its
cosmetic kind partitions `[0,1)` into the three equal kind intervals, and at
most one obstacle is appended per tick. -/
theorem obstacle_spawn_policy (cust : CarCustomization) (track : Track)
    (d : Draws) (time : ℚ) (s : GameState) (h : s.phase = Phase.playing)
    (hL0 : 0 ≤ d.obsLane) (hL1 : d.obsLane < 1)
    (hK0 : 0 ≤ d.obsKind) (hK1 : d.obsKind < 1) :
    ((gameLoop cust track d time s).obstacles =
        if obstacleSpawnGate d (survivingObstacles
            (s.speed + effectiveIncrement cust track) s.obstacles) then
          survivingObstacles (s.speed + effectiveIncrement cust track)
              s.obstacles ++ [newObstacle track d]
        else
          survivingObstacles (s.speed + effectiveIncrement cust track)
            s.obstacles) ∧
      (∀ l : List GameObject, obstacleSpawnGate d l = true ↔
        l = [] ∨ ∃ last, l.getLast? = some last ∧ last.y > 200 ∧
          d.obsGate < 0.02) ∧
      (newObstacle track d).y = -OBSTACLE_HEIGHT ∧
      (∀ k : ℤ, (newObstacle track d).lane = k ↔
        (k : ℚ) / 3 ≤ d.obsLane ∧ d.obsLane < ((k : ℚ) + 1) / 3) ∧
      ((newObstacle track d).lane = 0 ∨ (newObstacle track d).lane = 1 ∨
        (newObstacle track d).lane = 2) ∧
      ((newObstacle track d).kind = some ObstacleKind.pottery ↔
        d.obsKind < 1/3) ∧
      ((newObstacle track d).kind = some ObstacleKind.stall ↔
        1/3 ≤ d.obsKind ∧ d.obsKind < 2/3) ∧
      ((newObstacle track d).kind = some ObstacleKind.chariot ↔
        2/3 ≤ d.obsKind) ∧
      (gameLoop cust track d time s).obstacles.length ≤
        (survivingObstacles (s.speed + effectiveIncrement cust track)
          s.obstacles).length + 1 := by
  have hobs := gameLoop_obstacles cust track d time s h
  have hkind := getD_kinds_uniform d.obsKind hK0 hK1
  have hkindeq : (newObstacle track d).kind =
      some (obstacleKinds.getD (⌊d.obsKind * 3⌋).toNat ObstacleKind.pottery) := rfl
  have hlaneeq : (newObstacle track d).lane = ⌊d.obsLane * 3⌋ := rfl
  refine ⟨by rw [hobs]; rfl, obstacleSpawnGate_iff d, rfl, ?_, ?_, ?_, ?_, ?_, ?_⟩
  · intro k
    rw [hlaneeq]
    exact floor_mul_three_eq d.obsLane k
  · rw [hlaneeq]
    exact floor_mul_three_mem d.obsLane hL0 hL1
  · rw [hkindeq, Option.some_inj]
    exact hkind.1
  · rw [hkindeq, Option.some_inj]
    exact hkind.2.1
  · rw [hkindeq, Option.some_inj]
    exact hkind.2.2
  · rw [hobs]
    unfold tickObstacles
    by_cases hg : obstacleSpawnGate d (survivingObstacles
        (s.speed + effectiveIncrement cust track) s.obstacles) = true
    · simp [hg]
    · simp [hg]

theorem obstacle_spawn_policy_witness :
    samplePlaying.phase = Phase.playing ∧ (0 : ℚ) ≤ sampleDraws.obsLane ∧
      sampleDraws.obsLane < 1 ∧ (0 : ℚ) ≤ sampleDraws.obsKind ∧
      sampleDraws.obsKind < 1 ∧
      (newObstacle cityTrack sampleDraws).lane = 1 ∧
      (newObstacle cityTrack sampleDraws).kind = some ObstacleKind.stall :=
  ⟨rfl, by norm_num [sampleDraws], by norm_num [sampleDraws],
    by norm_num [sampleDraws], by norm_num [sampleDraws],
    ((obstacle_spawn_policy defaultCustomization cityTrack sampleDraws 1
      samplePlaying rfl (by norm_num [sampleDraws]) (by norm_num [sampleDraws])
      (by norm_num [sampleDraws]) (by norm_num [sampleDraws])).2.2.2.1 1).mpr
      (by norm_num [sampleDraws]),
    (obstacle_spawn_policy defaultCustomization cityTrack sampleDraws 1
      samplePlaying rfl (by norm_num [sampleDraws]) (by norm_num [sampleDraws])
      (by norm_num [sampleDraws]) (by norm_num [sampleDraws])).2.2.2.2.2.2.1.mpr
      (by norm_num [sampleDraws])⟩

theorem landmarkSpawnGate_iff (d : Draws) (l : List Landmark) :
    landmarkSpawnGate d l = true ↔
      l = [] ∨ ∃ last, l.getLast? = some last ∧ last.y > 400 ∧
        d.lmGate < 0.01 := by
  unfold landmarkSpawnGate
  rcases hl : l.getLast? with _ | last
  · have : l = [] := by
      cases l with
      | nil => rfl
      | cons a t => simp [List.getLast?_eq_none_iff] at hl
    simp [this]
  · have hne : l ≠ [] := by rintro rfl; simp at hl
    simp only [hl, hne, false_or, Bool.and_eq_true, decide_eq_true_eq]
    constructor
    · exact fun hc => ⟨last, rfl, hc.1, hc.2⟩
    · rintro ⟨last2, hlast2, hy, hg⟩
      cases hlast2
      exact ⟨hy, hg⟩

/-- An obstacle in lane 0 whose bottom edge will be past the bottom boundary
after the next tick while its stored `y` is still on screen. -/
def straddlingObstacle : GameObject :=
  { x := 125/3
    y := 542
    width := 50
    height := 80
    color := "#ef4444"
    lane := 0
    kind := some ObstacleKind.pottery }

/-- A running state containing only `straddlingObstacle` (the player is in
lane 1, so no collision occurs). -/
def straddlingState : GameState :=
  { phase := Phase.playing
    score := 0
    speed := 8
    highScore := 0
    player := initialPlayer
    obstacles := [straddlingObstacle]
    landmarks := []
    roadOffset := 0
    lastTime := 0 }

/-- `straddlingObstacle` after one tick of motion at speed `8.002`. -/
def straddlingMoved : GameObject :=
  { x := 125/3
    y := 275001/500
    width := 50
    height := 80
    color := "#ef4444"
    lane := 0
    kind := some ObstacleKind.pottery }

/-- C5 counterexample: after the motion step of a running tick, an obstacle
whose leading (bottom) edge `y + height = 630.002` has crossed the bottom
boundary `600` is nevertheless retained in the collection, because the filter
tests the stored `y` coordinate (the top edge), not the leading edge. -/
theorem leading_edge_eviction_cex :
    straddlingState.phase = Phase.playing ∧
      straddlingMoved ∈
        (gameLoop defaultCustomization cityTrack sampleDraws 1
          straddlingState).obstacles ∧
      straddlingMoved.y + straddlingMoved.height > CANVAS_HEIGHT := by
  refine ⟨rfl, ?_, by norm_num [straddlingMoved, CANVAS_HEIGHT]⟩
  norm_num [gameLoop, gameOver, straddlingState, straddlingObstacle,
    straddlingMoved, initialPlayer, tickObstacles, tickLandmarks,
    survivingObstacles, survivingLandmarks, obstacleSpawnGate, landmarkSpawnGate,
    newObstacle, newLandmark, effectiveIncrement, moveObstacle, moveLandmark,
    overlap, jsMod, laneX, defaultCustomization, cityTrack, sampleDraws,
    CANVAS_WIDTH, CANVAS_HEIGHT, LANE_WIDTH, PLAYER_WIDTH, PLAYER_HEIGHT,
    OBSTACLE_WIDTH, OBSTACLE_HEIGHT, TIRE_REDUCTION_PER_LEVEL, FLOOR_INCREMENT,
    obstacleKinds, max_def, List.filter, List.getLast?]

/-- C5 as amended: after the motion step of a running tick, an entity is
removed from its collection iff its stored `y` coordinate (its top edge — the
trailing edge of the downward motion) has reached the bottom boundary, i.e.
retained iff `y < CANVAS_HEIGHT`, so entities stay visible until fully
off-screen; the post-tick collections are exactly these survivors plus at
most the one freshly spawned entity. -/
theorem eviction_tests_stored_y (cust : CarCustomization) (track : Track)
    (d : Draws) (time : ℚ) (s : GameState) (h : s.phase = Phase.playing) :
    (∀ o : GameObject,
        o ∈ survivingObstacles (s.speed + effectiveIncrement cust track)
            s.obstacles ↔
          o ∈ s.obstacles.map
              (moveObstacle (s.speed + effectiveIncrement cust track)) ∧
            o.y < CANVAS_HEIGHT) ∧
      (∀ lm : Landmark,
        lm ∈ survivingLandmarks (s.speed + effectiveIncrement cust track)
            s.landmarks ↔
          lm ∈ s.landmarks.map
              (moveLandmark (s.speed + effectiveIncrement cust track)) ∧
            lm.y < CANVAS_HEIGHT) ∧
      ((gameLoop cust track d time s).obstacles =
        if obstacleSpawnGate d (survivingObstacles
            (s.speed + effectiveIncrement cust track) s.obstacles) then
          survivingObstacles (s.speed + effectiveIncrement cust track)
              s.obstacles ++ [newObstacle track d]
        else
          survivingObstacles (s.speed + effectiveIncrement cust track)
            s.obstacles) ∧
      ((gameLoop cust track d time s).landmarks =
        if landmarkSpawnGate d (survivingLandmarks
            (s.speed + effectiveIncrement cust track) s.landmarks) then
          survivingLandmarks (s.speed + effectiveIncrement cust track)
              s.landmarks ++ [newLandmark track d]
        else
          survivingLandmarks (s.speed + effectiveIncrement cust track)
            s.landmarks) := by
  refine ⟨fun o => ?_, fun lm => ?_, ?_, ?_⟩
  · unfold survivingObstacles
    simp [List.mem_filter]
  · unfold survivingLandmarks
    simp [List.mem_filter]
  · rw [gameLoop_obstacles cust track d time s h]; rfl
  · rw [gameLoop_landmarks cust track d time s h]; rfl

theorem eviction_tests_stored_y_witness :
    straddlingState.phase = Phase.playing ∧
      (straddlingMoved ∈ survivingObstacles
          (straddlingState.speed +
            effectiveIncrement defaultCustomization cityTrack)
          straddlingState.obstacles ↔
        straddlingMoved ∈ straddlingState.obstacles.map
            (moveObstacle (straddlingState.speed +
              effectiveIncrement defaultCustomization cityTrack)) ∧
          straddlingMoved.y < CANVAS_HEIGHT) :=
  ⟨rfl,
    (eviction_tests_stored_y defaultCustomization cityTrack sampleDraws 1
      straddlingState rfl).1 straddlingMoved⟩

theorem gameOver_player (s : GameState) : (gameOver s).player = s.player := by
  unfold gameOver
  split <;> rfl

theorem gameLoop_player (cust : CarCustomization) (track : Track) (d : Draws)
    (time : ℚ) (s : GameState) :
    (gameLoop cust track d time s).player = s.player := by
  by_cases h : s.phase = Phase.playing
  · rw [gameLoop_playing cust track d time s h]
    split
    · rw [gameOver_player]
    · rfl
  · rw [gameLoop_not_playing cust track d time s h]

theorem movePlayer_lane (dir : ℤ) (s : GameState) :
    (movePlayer dir s).player.lane = max 0 (min 2 (s.player.lane + dir)) := rfl

theorem reachable_lane_bound (s : GameState) (hs : Reachable s) :
    0 ≤ s.player.lane ∧ s.player.lane ≤ 2 := by
  have hs2 : Relation.ReflTransGen Step initialState s := hs
  induction hs2 with
  | refl => constructor <;> norm_num [initialState, initialPlayer]
  | tail hab hbc ih =>
    cases hbc with
    | start cust track now s => simp [startGame]
    | tick cust track d time s =>
      rw [gameLoop_player]
      exact ih hab
    | moveLeft s hp =>
      rw [movePlayer_lane]
      constructor
      · exact le_max_left 0 _
      · rcases le_total 2 (s.player.lane + -1) with hc | hc <;>
          simp [min_eq_left, min_eq_right, hc]
    | moveRight s hp =>
      rw [movePlayer_lane]
      constructor
      · exact le_max_left 0 _
      · rcases le_total 2 (s.player.lane + 1) with hc | hc <;>
          simp [min_eq_left, min_eq_right, hc]

/-- C7: in every reachable state the player's lane is 0, 1 or 2; a lane
change adds the direction and clamps into `[0,2]`; starting a session resets
the lane to the center lane 1; and neither a tick nor termination touches the
player (so nothing else modifies the lane). -/
theorem lane_always_in_range_and_clamped :
    (∀ s : GameState, Reachable s →
        s.player.lane = 0 ∨ s.player.lane = 1 ∨ s.player.lane = 2) ∧
      (∀ (dir : ℤ) (s : GameState),
        (movePlayer dir s).player.lane = max 0 (min 2 (s.player.lane + dir))) ∧
      (∀ (cust : CarCustomization) (track : Track) (now : ℚ) (s : GameState),
        (startGame cust track now s).player.lane = 1) ∧
      (∀ (cust : CarCustomization) (track : Track) (d : Draws) (time : ℚ)
        (s : GameState),
        (gameLoop cust track d time s).player = s.player) ∧
      (∀ s : GameState, (gameOver s).player = s.player) := by
  refine ⟨fun s hs => ?_, movePlayer_lane, fun _ _ _ _ => rfl,
    gameLoop_player, gameOver_player⟩
  have hb := reachable_lane_bound s hs
  omega

theorem lane_always_in_range_and_clamped_witness :
    Reachable initialState ∧
      (initialState.player.lane = 0 ∨ initialState.player.lane = 1 ∨
        initialState.player.lane = 2) :=
  ⟨Relation.ReflTransGen.refl,
    lane_always_in_range_and_clamped.1 initialState Relation.ReflTransGen.refl⟩

theorem mem_survivingObstacles_elim (v : ℚ) (l : List GameObject)
    (o : GameObject) (ho : o ∈ survivingObstacles v l) :
    ∃ p ∈ l, o = moveObstacle v p ∧ o.y < CANVAS_HEIGHT := by
  unfold survivingObstacles at ho
  obtain ⟨hmem, hy⟩ := List.mem_filter.mp ho
  obtain ⟨p, hp, rfl⟩ := List.mem_map.mp hmem
  exact ⟨p, hp, rfl, by simpa using hy⟩

theorem mem_survivingLandmarks_elim (v : ℚ) (l : List Landmark)
    (lm : Landmark) (hlm : lm ∈ survivingLandmarks v l) :
    ∃ p ∈ l, lm = moveLandmark v p ∧ lm.y < CANVAS_HEIGHT := by
  unfold survivingLandmarks at hlm
  obtain ⟨hmem, hy⟩ := List.mem_filter.mp hlm
  obtain ⟨p, hp, rfl⟩ := List.mem_map.mp hmem
  exact ⟨p, hp, rfl, by simpa using hy⟩

theorem mem_tickObstacles_elim (track : Track) (d : Draws) (v : ℚ)
    (l : List GameObject) (o : GameObject) (ho : o ∈ tickObstacles track d v l) :
    (∃ p ∈ l, o = moveObstacle v p ∧ o.y < CANVAS_HEIGHT) ∨
      o = newObstacle track d := by
  unfold tickObstacles at ho
  by_cases hg : obstacleSpawnGate d (survivingObstacles v l) = true
  · rw [if_pos hg] at ho
    rcases List.mem_append.mp ho with hmem | hmem
    · exact Or.inl (mem_survivingObstacles_elim v l o hmem)
    · exact Or.inr (by simpa using hmem)
  · rw [if_neg hg] at ho
    exact Or.inl (mem_survivingObstacles_elim v l o ho)

theorem mem_tickLandmarks_elim (track : Track) (d : Draws) (v : ℚ)
    (l : List Landmark) (lm : Landmark) (hlm : lm ∈ tickLandmarks track d v l) :
    (∃ p ∈ l, lm = moveLandmark v p ∧ lm.y < CANVAS_HEIGHT) ∨
      lm = newLandmark track d := by
  unfold tickLandmarks at hlm
  by_cases hg : landmarkSpawnGate d (survivingLandmarks v l) = true
  · rw [if_pos hg] at hlm
    rcases List.mem_append.mp hlm with hmem | hmem
    · exact Or.inl (mem_survivingLandmarks_elim v l lm hmem)
    · exact Or.inr (by simpa using hmem)
  · rw [if_neg hg] at hlm
    exact Or.inl (mem_survivingLandmarks_elim v l lm hlm)

theorem step_preserves_on_screen {a b : GameState} (hstep : Step a b)
    (ha : (∀ o ∈ a.obstacles, o.y < CANVAS_HEIGHT) ∧
      (∀ lm ∈ a.landmarks, lm.y < CANVAS_HEIGHT)) :
    (∀ o ∈ b.obstacles, o.y < CANVAS_HEIGHT) ∧
      (∀ lm ∈ b.landmarks, lm.y < CANVAS_HEIGHT) := by
  cases hstep with
  | start cust track now => simp [startGame]
  | tick cust track d time =>
    by_cases h : a.phase = Phase.playing
    · rw [gameLoop_obstacles cust track d time a h,
        gameLoop_landmarks cust track d time a h]
      constructor
      · intro o ho
        rcases mem_tickObstacles_elim _ _ _ _ o ho with ⟨_, _, _, hy⟩ | rfl
        · exact hy
        · norm_num [newObstacle, OBSTACLE_HEIGHT, CANVAS_HEIGHT]
      · intro lm hlm
        rcases mem_tickLandmarks_elim _ _ _ _ lm hlm with ⟨_, _, _, hy⟩ | rfl
        · exact hy
        · norm_num [newLandmark, CANVAS_HEIGHT]
    · rw [gameLoop_not_playing cust track d time a h]
      exact ha
  | moveLeft hp => exact ha
  | moveRight hp => exact ha

theorem reachable_entities_on_screen (s : GameState) (hs : Reachable s) :
    (∀ o ∈ s.obstacles, o.y < CANVAS_HEIGHT) ∧
      (∀ lm ∈ s.landmarks, lm.y < CANVAS_HEIGHT) := by
  have hs2 : Relation.ReflTransGen Step initialState s := hs
  induction hs2 with
  | refl => simp [initialState]
  | tail hab hbc ih => exact step_preserves_on_screen hbc (ih hab)

/-- C9: no evicted entity ever reappears: in every reachable state every
obstacle and landmark satisfies `y < CANVAS_HEIGHT` (an evicted entity has
`y ≥ CANVAS_HEIGHT` and is gone for good), and on every running tick each
entity of the post-state is either a moved survivor of the pre-state
(retained precisely because it was not evicted) or the one fresh entity
spawned at the top boundary. -/
theorem evicted_entities_never_reappear :
    (∀ s : GameState, Reachable s →
        (∀ o ∈ s.obstacles, o.y < CANVAS_HEIGHT) ∧
          (∀ lm ∈ s.landmarks, lm.y < CANVAS_HEIGHT)) ∧
      (∀ (cust : CarCustomization) (track : Track) (d : Draws) (time : ℚ)
        (s : GameState), s.phase = Phase.playing →
        (∀ o ∈ (gameLoop cust track d time s).obstacles,
            (∃ p ∈ s.obstacles,
                o = moveObstacle (s.speed + effectiveIncrement cust track) p ∧
                  o.y < CANVAS_HEIGHT) ∨
              o = newObstacle track d) ∧
          (∀ lm ∈ (gameLoop cust track d time s).landmarks,
            (∃ p ∈ s.landmarks,
                lm = moveLandmark (s.speed + effectiveIncrement cust track) p ∧
                  lm.y < CANVAS_HEIGHT) ∨
              lm = newLandmark track d)) := by
  refine ⟨reachable_entities_on_screen, fun cust track d time s h => ⟨?_, ?_⟩⟩
  · intro o ho
    rw [gameLoop_obstacles cust track d time s h] at ho
    exact mem_tickObstacles_elim _ _ _ _ o ho
  · intro lm hlm
    rw [gameLoop_landmarks cust track d time s h] at hlm
    exact mem_tickLandmarks_elim _ _ _ _ lm hlm

theorem evicted_entities_never_reappear_witness :
    Reachable initialState ∧ samplePlaying.phase = Phase.playing ∧
      (∀ o ∈ initialState.obstacles, o.y < CANVAS_HEIGHT) ∧
      (∀ o ∈ (gameLoop defaultCustomization cityTrack sampleDraws 1
          samplePlaying).obstacles,
        (∃ p ∈ samplePlaying.obstacles,
            o = moveObstacle (samplePlaying.speed +
              effectiveIncrement defaultCustomization cityTrack) p ∧
              o.y < CANVAS_HEIGHT) ∨
          o = newObstacle cityTrack sampleDraws) :=
  ⟨Relation.ReflTransGen.refl, rfl,
    (evicted_entities_never_reappear.1 initialState Relation.ReflTransGen.refl).1,
    (evicted_entities_never_reappear.2 defaultCustomization cityTrack
      sampleDraws 1 samplePlaying rfl).1⟩

/-- The simulation-observable part of a state: every field except the
`lastTimeRef` latch (which is written each tick but never read, since the
computed `deltaTime` is discarded). -/
def simFields (s : GameState) :
    Phase × ℕ × ℚ × ℕ × GameObject × List GameObject × List Landmark × ℚ :=
  (s.phase, s.score, s.speed, s.highScore, s.player, s.obstacles, s.landmarks,
    s.roadOffset)

theorem gameLoop_lastTime (cust : CarCustomization) (track : Track) (d : Draws)
    (time : ℚ) (s : GameState) (h : s.phase = Phase.playing) :
    (gameLoop cust track d time s).lastTime = time := by
  rw [gameLoop_playing cust track d time s h]
  split
  · rw [gameOver_playing _ (by simp [h])]
  · rfl

/-- C10 counterexample: two ticks from the same running pre-state with the
same draws but different timestamps do not produce identical post-states:
the stored `lastTime` latch records the timestamp argument. -/
theorem tick_timestamp_full_state_cex :
    gameLoop defaultCustomization cityTrack sampleDraws 0 samplePlaying ≠
      gameLoop defaultCustomization cityTrack sampleDraws 1 samplePlaying := by
  intro hEq
  have h0 := gameLoop_lastTime defaultCustomization cityTrack sampleDraws 0
    samplePlaying rfl
  have h1 := gameLoop_lastTime defaultCustomization cityTrack sampleDraws 1
    samplePlaying rfl
  rw [hEq, h1] at h0
  norm_num at h0

/-- C10 as amended: the tick result is independent of the timestamp argument
except for the write-only `lastTime` latch: all simulation-observable fields
of the post-state coincide for any two timestamps, and the latch itself never
influences a later tick (pre-states equal up to the latch give post-states
equal up to the latch), so no observable of the session ever depends on the
timestamps — the computed delta time is dead. -/
theorem tick_independent_of_timestamp :
    (∀ (cust : CarCustomization) (track : Track) (d : Draws) (t1 t2 : ℚ)
        (s : GameState),
        simFields (gameLoop cust track d t1 s) =
          simFields (gameLoop cust track d t2 s)) ∧
      (∀ (cust : CarCustomization) (track : Track) (d : Draws) (time : ℚ)
        (s1 s2 : GameState), simFields s1 = simFields s2 →
        simFields (gameLoop cust track d time s1) =
          simFields (gameLoop cust track d time s2)) := by
  constructor
  · intro cust track d t1 t2 s
    by_cases h : s.phase = Phase.playing
    · rw [gameLoop_playing cust track d t1 s h,
        gameLoop_playing cust track d t2 s h]
      by_cases hc :
          ((tickObstacles track d (s.speed + effectiveIncrement cust track)
            s.obstacles).any fun o => decide (overlap s.player o)) = true
      · rw [if_pos hc, if_pos hc, gameOver_playing _ (by simp [h]),
          gameOver_playing _ (by simp [h])]
        rfl
      · rw [if_neg hc, if_neg hc]
        rfl
    · rw [gameLoop_not_playing cust track d t1 s h,
        gameLoop_not_playing cust track d t2 s h]
  · intro cust track d time s1 s2 hEq
    cases s1 with
    | mk phase1 score1 speed1 high1 player1 obs1 lms1 road1 last1 =>
      cases s2 with
      | mk phase2 score2 speed2 high2 player2 obs2 lms2 road2 last2 =>
        simp only [simFields, Prod.mk.injEq] at hEq
        obtain ⟨h1, h2, h3, h4, h5, h6, h7, h8⟩ := hEq
        subst h1; subst h2; subst h3; subst h4
        subst h5; subst h6; subst h7; subst h8
        by_cases h : phase1 = Phase.playing
        · rw [gameLoop_playing _ _ _ _ _ h, gameLoop_playing _ _ _ _ _ h]
        · rw [gameLoop_not_playing _ _ _ _ _ h,
            gameLoop_not_playing _ _ _ _ _ h]
          rfl

/-- A copy of `samplePlaying` differing only in the `lastTime` latch. -/
def samplePlayingLate : GameState := { samplePlaying with lastTime := 5 }

theorem tick_independent_of_timestamp_witness :
    simFields samplePlaying = simFields samplePlayingLate ∧
      simFields (gameLoop defaultCustomization cityTrack sampleDraws 1
          samplePlaying) =
        simFields (gameLoop defaultCustomization cityTrack sampleDraws 1
          samplePlayingLate) :=
  ⟨rfl,
    tick_independent_of_timestamp.2 defaultCustomization cityTrack sampleDraws
      1 samplePlaying samplePlayingLate rfl⟩

end TurboRacer
